import Mathlib

/-!
Verification of the qrcode-generator single-page app (src/pages/Home.tsx,
src/main.tsx) against its natural-language specification.

The page is a single React component `Home`:
  inputText / isGenerating are `useState` cells, debouncedText comes from a
  `useDebounce(inputText, 800)` hook, and the view renders either a
  placeholder, a spinner, or a `QRCode` element, with copy-to-clipboard and
  download handlers operating on the canvas found in the QR container.

We shallowly embed the component as an explicit state machine over
`HomeState`, the browser surroundings as a `BrowserEnv` record, and the
handlers as pure functions producing lists of external `Effect`s.
-/

namespace QrcodeGen

/-- Whitespace characters stripped by JavaScript `String.prototype.trim`
(the code points relevant here: TAB, LF, VT, FF, CR, space, NBSP, BOM). -/
def isJsWhitespace (c : Char) : Bool :=
  c = ' ' || c = '\t' || c = '\n' || c = '\r' ||
  c = '\u000B' || c = '\u000C' || c = ' ' || c = '﻿'

/-- JavaScript truthiness of `s.trim()` (Home.tsx lines 17, 45, 154, 191):
`s.trim()` is a non-empty string iff `s` contains a non-whitespace
character. -/
def jsTrimNonempty (s : String) : Bool :=
  s.data.any (fun c => !(isJsWhitespace c))

/-- An abstract rendered canvas: `raster` stands for its pixel content. -/
structure Canvas where
  raster : String
deriving DecidableEq, Repr

/-- A binary blob with a mime type, as produced by `canvas.toBlob`. -/
structure Blob where
  mime : String
  content : String
deriving DecidableEq, Repr

/-- `canvas.toBlob` with no type argument (Home.tsx line 56) encodes the
canvas as PNG. -/
def canvasToBlobPng (c : Canvas) : Blob :=
  { mime := "image/png", content := c.raster }

/-- `canvas.toDataURL('image/png')` (Home.tsx line 208): a PNG data URI
for the canvas content. -/
def canvasToDataUrlPng (c : Canvas) : String :=
  "data:image/png;base64," ++ c.raster

/-- The browser surroundings a handler invocation sees:
`canvas` is the result of `qrCodeRef.current?.querySelector('canvas')`,
`toBlobSucceeds` says whether `canvas.toBlob` passes a non-null blob to its
callback, `clipboardOk` says whether `navigator.clipboard.write` resolves
(false covers permission denied and API unsupported). -/
structure BrowserEnv where
  canvas : Option Canvas
  toBlobSucceeds : Bool
  clipboardOk : Bool
deriving DecidableEq, Repr

/-- Externally observable effects of a handler run. -/
inductive Effect where
  | toast (msg : String)
  | clipboardWrite (mime : String) (payload : Blob)
  | saveDownload (filename : String) (href : String)
deriving DecidableEq, Repr

/-- Outcome of one `handleCopyQRCode` invocation: the emitted effects, and
whether a promise rejection escaped unhandled. -/
structure CopyOutcome where
  effects : List Effect
  unhandledRejection : Bool
deriving DecidableEq, Repr

/-- `handleCopyQRCode` (Home.tsx lines 44-66).

Control flow of the source: an empty-after-trim `debouncedText` short
circuits with a guard toast.  Otherwise the `try` block looks up the canvas
(returning silently when absent) and registers an async `toBlob` callback.
The callback runs after the `try`/`catch` has exited: a null blob returns
silently, and a rejection of `navigator.clipboard.write` inside the async
callback is not seen by the `catch` (which only covers the synchronous
registration), so it escapes as an unhandled promise rejection and the
fallback toast of line 64 is not reached. -/
def handleCopyQRCode (debouncedText : String) (env : BrowserEnv) : CopyOutcome :=
  if !jsTrimNonempty debouncedText then
    { effects := [Effect.toast "请先输入内容生成二维码"], unhandledRejection := false }
  else
    match env.canvas with
    | none => { effects := [], unhandledRejection := false }
    | some canvas =>
      if !env.toBlobSucceeds then
        { effects := [], unhandledRejection := false }
      else if env.clipboardOk then
        { effects := [Effect.clipboardWrite "image/png" (canvasToBlobPng canvas),
                      Effect.toast "二维码已复制到剪贴板"],
          unhandledRejection := false }
      else
        { effects := [Effect.clipboardWrite "image/png" (canvasToBlobPng canvas)],
          unhandledRejection := true }

/-- The download button handler (Home.tsx lines 202-211): if a canvas is
present, create an anchor with `download = 'qrcode.png'` and
`href = canvas.toDataURL('image/png')` and click it once. -/
def handleDownload (env : BrowserEnv) : List Effect :=
  match env.canvas with
  | some canvas => [Effect.saveDownload "qrcode.png" (canvasToDataUrlPng canvas)]
  | none => []

/-- Props passed to the `QRCode` element (Home.tsx lines 167-174). -/
structure QRProps where
  value : String
  size : Nat
  level : String
  includeMargin : Bool
  bgColor : String
  fgColor : String
deriving DecidableEq, Repr

def qrProps (text : String) : QRProps :=
  { value := text, size := 200, level := "H", includeMargin := true,
    bgColor := "#ffffff", fgColor := "#000000" }

/-- What the QR display area shows. -/
inductive View where
  | placeholder
  | spinner
  | qrcode (props : QRProps)
deriving DecidableEq, Repr

/-- The QR display area (Home.tsx lines 154-188): if `debouncedText.trim()`
is truthy, show the spinner while `isGenerating`, else the `QRCode` element;
otherwise show the placeholder. -/
def renderView (debouncedText : String) (isGenerating : Bool) : View :=
  if jsTrimNonempty debouncedText then
    if isGenerating then View.spinner else View.qrcode (qrProps debouncedText)
  else View.placeholder

/-- The debounce quiet period: `useDebounce(inputText, 800)` (Home.tsx
line 13). -/
def debounceDelay : Nat := 800

/-- The fixed delay after which the generation flag is meant to clear
(Home.tsx line 23). -/
def generationDelay : Nat := 200

/-- Modelled from the spec: the `useDebounce` hook is imported from
`@/hooks/useDebounce`, whose source file is not part of this tree.  Per the
spec (section 4.2) it is a single-slot debounce: each input change cancels
any pending publication and schedules the new value to be published after
the quiet period; when the timer fires, the value is published.  `value` is
the currently published debounced text, `pending` the scheduled value with
its fire time, `published` the log of publications `(time, value)`. -/
structure DebounceState where
  value : String
  pending : Option (String × Nat)
  published : List (Nat × String)
deriving DecidableEq, Repr

/-- A pending debounce timer fires once its deadline is reached: the
scheduled value is published. -/
def debounceAdvance (s : DebounceState) (now : Nat) : DebounceState :=
  match s.pending with
  | some (v, d) =>
    if d ≤ now then
      { value := v, pending := none, published := s.published ++ [(d, v)] }
    else s
  | none => s

/-- An input change at time `now`: any timer due by `now` has already
fired; the pending publication (if any) is cancelled and the new value is
scheduled for `now + debounceDelay`. -/
def debounceChange (s : DebounceState) (now : Nat) (v : String) : DebounceState :=
  let s₁ := debounceAdvance s now
  { s₁ with pending := some (v, now + debounceDelay) }

def initialDebounce : DebounceState :=
  { value := "", pending := none, published := [] }

/-- The view-local state of the `Home` component: `inputText` and
`isGenerating` are the two `useState` cells (Home.tsx lines 8-9),
`genClearAt` the deadline of a scheduled `setIsGenerating(false)` timer
(line 21), `db` the debounce hook state. -/
structure HomeState where
  inputText : String
  isGenerating : Bool
  genClearAt : Option Nat
  db : DebounceState
deriving DecidableEq, Repr

/-- The body passed to `useState` at Home.tsx lines 16-27.  Because it is a
`useState` lazy initializer (not a `useEffect`), React runs it exactly once,
during the first render, with the debounced text of that first render; it is
never re-run when the debounced text changes later.  When it does run and
the debounced text is non-blank, it sets the generation flag and schedules
its clearing `generationDelay` later. -/
def generationInit (s : HomeState) (now : Nat) : HomeState :=
  if jsTrimNonempty s.db.value then
    { s with isGenerating := true, genClearAt := some (now + generationDelay) }
  else s

/-- Component state right after mount: both `useState` cells start at
`''`/`false`, the debounce hook returns the initial input text `''`, and
the lazy initializer of lines 16-27 runs once. -/
def initialHomeState : HomeState :=
  generationInit
    { inputText := "", isGenerating := false, genClearAt := none,
      db := initialDebounce } 0

/-- Time advances to `t`: due timers (the debounce timer and the
generation-clearing timer) fire. -/
def homeAdvance (s : HomeState) (t : Nat) : HomeState :=
  let s₁ := { s with db := debounceAdvance s.db t }
  match s₁.genClearAt with
  | some d => if d ≤ t then { s₁ with isGenerating := false, genClearAt := none } else s₁
  | none => s₁

/-- `setInputText(v)` at time `t` (used by `handleInputChange`, the clear
button and the Ctrl+Enter shortcut): the input cell is replaced and the
debounce hook observes the change. -/
def homeSetInput (s : HomeState) (t : Nat) (v : String) : HomeState :=
  let s₁ := homeAdvance s t
  { s₁ with inputText := v, db := debounceChange s₁.db t v }

/-- The UI events the component reacts to.  `inputChange` is a keystroke
replacing the textarea content, `clearClick` the clear button (line 105),
`keyDown` the textarea key handler (lines 35-41), `elapse` the passage of
time to instant `t`, `copyClick` either the QR container click (line 159)
or the copy button (line 194), `downloadClick` the download button. -/
inductive UIEvent where
  | inputChange (t : Nat) (v : String)
  | clearClick (t : Nat)
  | keyDown (t : Nat) (ctrl : Bool) (key : String)
  | elapse (t : Nat)
  | copyClick (env : BrowserEnv)
  | downloadClick (env : BrowserEnv)

/-- One step of the component: the next state and the external effects
emitted. -/
def homeStep (s : HomeState) : UIEvent → HomeState × List Effect
  | UIEvent.inputChange t v => (homeSetInput s t v, [])
  | UIEvent.clearClick t => (homeSetInput s t "", [])
  | UIEvent.keyDown t ctrl key =>
    if ctrl && key == "Enter" then (homeSetInput s t "", []) else (s, [])
  | UIEvent.elapse t => (homeAdvance s t, [])
  | UIEvent.copyClick env => (s, (handleCopyQRCode s.db.value env).effects)
  | UIEvent.downloadClick env => (s, handleDownload env)

/-- Run the component from mount through a list of events, keeping the
state. -/
def runHome (events : List UIEvent) : HomeState :=
  events.foldl (fun s e => (homeStep s e).1) initialHomeState

/-- What the QR display area shows in a given state. -/
def homeView (s : HomeState) : View :=
  renderView s.db.value s.isGenerating

theorem jsTrimNonempty_empty : jsTrimNonempty "" = false := rfl

/-- C3: copying while the debounced text is empty or whitespace-only
produces exactly the "please enter content" toast, no clipboard write, and
returns without touching the canvas: the outcome is the same for every
browser environment, canvas present or not. -/
theorem copy_empty_guard (d : String) (env : BrowserEnv)
    (h : jsTrimNonempty d = false) :
    handleCopyQRCode d env =
      { effects := [Effect.toast "请先输入内容生成二维码"], unhandledRejection := false } := by
  simp [handleCopyQRCode, h]

theorem copy_empty_guard_witness :
    jsTrimNonempty "  " = false ∧
    handleCopyQRCode "  " { canvas := some ⟨"qr"⟩, toBlobSucceeds := true, clipboardOk := true } =
      { effects := [Effect.toast "请先输入内容生成二维码"], unhandledRejection := false } :=
  ⟨by decide,
   copy_empty_guard "  " { canvas := some ⟨"qr"⟩, toBlobSucceeds := true, clipboardOk := true }
     (by decide)⟩

/-- C4: copying with non-blank debounced text, a rendered canvas present,
a successful blob conversion and a working clipboard issues exactly one
clipboard write, whose payload is the PNG encoding of the canvas, followed
by the success toast. -/
theorem copy_success_single_write (d : String) (c : Canvas)
    (h : jsTrimNonempty d = true) :
    handleCopyQRCode d { canvas := some c, toBlobSucceeds := true, clipboardOk := true } =
      { effects := [Effect.clipboardWrite "image/png" (canvasToBlobPng c),
                    Effect.toast "二维码已复制到剪贴板"],
        unhandledRejection := false } := by
  simp [handleCopyQRCode, h]

theorem copy_success_single_write_witness :
    jsTrimNonempty "https://example.com" = true ∧
    handleCopyQRCode "https://example.com"
        { canvas := some ⟨"qr"⟩, toBlobSucceeds := true, clipboardOk := true } =
      { effects := [Effect.clipboardWrite "image/png" { mime := "image/png", content := "qr" },
                    Effect.toast "二维码已复制到剪贴板"],
        unhandledRejection := false } :=
  ⟨by decide, copy_success_single_write "https://example.com" ⟨"qr"⟩ (by decide)⟩

/-- C2 is false of the code: when the clipboard write is denied, the
rejection happens inside the async `toBlob` callback, after the enclosing
`try`/`catch` has already returned, so the fallback toast of Home.tsx
line 64 is never shown and the rejection escapes unhandled.  Evaluated at
the failing input (non-blank text, canvas present, blob produced, clipboard
write rejecting): the outcome emits no toast of any kind and carries an
unhandled rejection. -/
theorem copy_clipboard_rejection_escapes :
    handleCopyQRCode "a" { canvas := some ⟨"qr"⟩, toBlobSucceeds := true, clipboardOk := false } =
      { effects := [Effect.clipboardWrite "image/png" { mime := "image/png", content := "qr" }],
        unhandledRejection := true } ∧
    (handleCopyQRCode "a"
        { canvas := some ⟨"qr"⟩, toBlobSucceeds := true, clipboardOk := false }).effects.all
      (fun e => match e with | Effect.toast _ => false | _ => true) = true := by
  constructor <;> decide

/-- C10: copying with non-blank debounced text but no canvas in the QR
container (or a null blob from `toBlob`) returns silently: no effect of any
kind is emitted and nothing escapes. -/
theorem copy_silent_without_canvas (d : String) (env : BrowserEnv)
    (h : jsTrimNonempty d = true)
    (h₂ : env.canvas = none ∨ env.toBlobSucceeds = false) :
    handleCopyQRCode d env = { effects := [], unhandledRejection := false } := by
  rcases env with ⟨canvas, tb, cb⟩
  rcases h₂ with h₂ | h₂
  · simp only at h₂
    subst h₂
    simp [handleCopyQRCode, h]
  · simp only at h₂
    subst h₂
    cases canvas <;> simp [handleCopyQRCode, h]

theorem copy_silent_without_canvas_witness :
    jsTrimNonempty "a" = true ∧
    handleCopyQRCode "a" { canvas := none, toBlobSucceeds := true, clipboardOk := true } =
      { effects := [], unhandledRejection := false } :=
  ⟨by decide,
   copy_silent_without_canvas "a" { canvas := none, toBlobSucceeds := true, clipboardOk := true }
     (by decide) (Or.inl rfl)⟩

/-- C5: the download handler, whenever a rendered canvas exists, performs
exactly one save-triggering call, with the fixed filename `qrcode.png` and
the canvas serialized as a PNG data URI. -/
theorem download_single_save (env : BrowserEnv) (c : Canvas)
    (h : env.canvas = some c) :
    handleDownload env = [Effect.saveDownload "qrcode.png" (canvasToDataUrlPng c)] := by
  simp [handleDownload, h]

theorem download_single_save_witness :
    handleDownload { canvas := some ⟨"qr"⟩, toBlobSucceeds := true, clipboardOk := true } =
      [Effect.saveDownload "qrcode.png" "data:image/png;base64,qr"] :=
  download_single_save { canvas := some ⟨"qr"⟩, toBlobSucceeds := true, clipboardOk := true }
    ⟨"qr"⟩ rfl

/-- C7 as literally stated is false: a non-empty but whitespace-only
debounced text (here a single space) renders the placeholder, not a QR
code, because the source tests `debouncedText.trim()`. -/
theorem render_whitespace_counterexample :
    (" " : String) ≠ "" ∧
    renderView " " false = View.placeholder ∧
    renderView " " false ≠ View.qrcode (qrProps " ") := by
  refine ⟨by decide, by decide, by decide⟩

/-- C7 (amended): whenever the debounced text contains a non-whitespace
character and the generation flag is false, the rendered QR code element
receives exactly the debounced text with level H, size 200, margin
included, background `#ffffff` and foreground `#000000`. -/
theorem render_qr_exact_props (d : String) (h : jsTrimNonempty d = true) :
    renderView d false = View.qrcode (qrProps d) := by
  simp [renderView, h]

theorem render_qr_exact_props_witness :
    jsTrimNonempty "https://example.com" = true ∧
    renderView "https://example.com" false =
      View.qrcode { value := "https://example.com", size := 200, level := "H",
                    includeMargin := true, bgColor := "#ffffff", fgColor := "#000000" } :=
  ⟨by decide, render_qr_exact_props "https://example.com" (by decide)⟩

/-- C6: (1) from any prior debounce state, once an input change at time `t`
is followed by a quiet period — no further keystrokes up to a time `T` at
least `t + 800` — the published debounced value equals that input; (2) two
changes within less than the quiet period publish only the final value: the
publication log holds the second value alone once its deadline passes, and
nothing before; the first value is never published. -/
theorem useDebounce_single_slot :
    (∀ (st : DebounceState) (t : Nat) (v : String) (T : Nat),
      t + debounceDelay ≤ T →
      (debounceAdvance (debounceChange st t v) T).value = v) ∧
    (∀ (t₁ : Nat) (v₁ : String) (t₂ : Nat) (v₂ : String) (T : Nat),
      t₂ < t₁ + debounceDelay →
      (debounceAdvance (debounceChange (debounceChange initialDebounce t₁ v₁) t₂ v₂)
          T).published =
        if t₂ + debounceDelay ≤ T then [(t₂ + debounceDelay, v₂)] else []) := by
  constructor
  · intro st t v T hT
    simp [debounceChange, debounceAdvance, hT]
  · intro t₁ v₁ t₂ v₂ T h₂
    have hne : ¬ (t₁ + debounceDelay ≤ t₂) := by omega
    simp [debounceChange, debounceAdvance, initialDebounce, hne]
    split <;> simp

theorem useDebounce_single_slot_witness :
    (0 : Nat) + debounceDelay ≤ 800 ∧
    (debounceAdvance (debounceChange initialDebounce 0 "ab") 800).value = "ab" ∧
    (100 : Nat) < 0 + debounceDelay ∧
    (debounceAdvance (debounceChange (debounceChange initialDebounce 0 "a") 100 "ab")
        900).published = [(900, "ab")] := by
  refine ⟨by decide, useDebounce_single_slot.1 initialDebounce 0 "ab" 800 (by decide),
          by decide, ?_⟩
  have h := useDebounce_single_slot.2 0 "a" 100 "ab" 900 (by decide)
  simpa [debounceDelay] using h

/-- Auxiliary: passing time never turns the generation flag on. -/
theorem homeAdvance_isGenerating (s : HomeState) (t : Nat)
    (h : s.isGenerating = false) :
    (homeAdvance s t).isGenerating = false := by
  unfold homeAdvance
  cases hg : s.genClearAt <;> simp [hg, h]
  split <;> simp [h]

/-- Auxiliary: replacing the input text never turns the generation flag
on. -/
theorem homeSetInput_isGenerating (s : HomeState) (t : Nat) (v : String)
    (h : s.isGenerating = false) :
    (homeSetInput s t v).isGenerating = false := by
  simp [homeSetInput]
  exact homeAdvance_isGenerating s t h

/-- Auxiliary: no UI event ever turns the generation flag on — the only
code that sets it to `true` is the lazy initializer of Home.tsx line 16,
which React runs exactly once, at mount. -/
theorem homeStep_isGenerating (s : HomeState) (e : UIEvent)
    (h : s.isGenerating = false) :
    (homeStep s e).1.isGenerating = false := by
  cases e with
  | inputChange t v => exact homeSetInput_isGenerating s t v h
  | clearClick t => exact homeSetInput_isGenerating s t "" h
  | keyDown t ctrl key =>
    simp only [homeStep]
    split
    · exact homeSetInput_isGenerating s t "" h
    · exact h
  | elapse t => exact homeAdvance_isGenerating s t h
  | copyClick env => exact h
  | downloadClick env => exact h

theorem runHome_isGenerating_aux (events : List UIEvent) (s : HomeState)
    (h : s.isGenerating = false) :
    (events.foldl (fun s e => (homeStep s e).1) s).isGenerating = false := by
  induction events generalizing s with
  | nil => exact h
  | cons e es ih => exact ih _ (homeStep_isGenerating s e h)

/-- C1 is false of the code: the effect of Home.tsx lines 16-27 is
registered through `useState`, whose lazy initializer runs only once, at
mount, when the debounced text is still empty — it never re-runs when the
debounced text changes.  So along every event sequence the generation flag
stays `false`; in particular on the failing trace (type `a` at time 0, let
the 800ms debounce fire) the debounced text transitions from empty to
`a` yet the flag is not set, stays clear 200ms later, and the view shows
the QR code immediately, never the spinner — even though the render code
would show the spinner whenever the flag were true. -/
theorem generation_flag_never_set :
    (∀ events : List UIEvent, (runHome events).isGenerating = false) ∧
    (runHome [UIEvent.inputChange 0 "a"]).db.value = "" ∧
    (runHome [UIEvent.inputChange 0 "a", UIEvent.elapse 800]).db.value = "a" ∧
    (runHome [UIEvent.inputChange 0 "a", UIEvent.elapse 800]).isGenerating = false ∧
    (runHome [UIEvent.inputChange 0 "a", UIEvent.elapse 800,
        UIEvent.elapse 1000]).isGenerating = false ∧
    homeView (runHome [UIEvent.inputChange 0 "a", UIEvent.elapse 800]) =
      View.qrcode (qrProps "a") ∧
    renderView "a" true = View.spinner := by
  refine ⟨fun events => runHome_isGenerating_aux events initialHomeState rfl,
          ?_, ?_, ?_, ?_, ?_, ?_⟩ <;> decide

/-- Auxiliary: the debounced value after time passes is the one produced by
the debounce hook alone — the generation-clearing timer does not touch
it. -/
theorem homeAdvance_db_value (s : HomeState) (t : Nat) :
    (homeAdvance s t).db.value = (debounceAdvance s.db t).value := by
  unfold homeAdvance
  cases hg : s.genClearAt <;> simp [hg]
  split <;> rfl

/-- C8: clearing the input — via the clear control or the Ctrl+Enter
shortcut — sets the input text to the empty string, and once the debounce
quiet period has elapsed (time reaches at least `t + 800`), the QR display
reverts to the placeholder, from any component state. -/
theorem clear_reverts_to_placeholder (s : HomeState) (t T : Nat)
    (h : t + debounceDelay ≤ T) :
    (homeStep s (UIEvent.keyDown t true "Enter")).1.inputText = "" ∧
    (homeStep s (UIEvent.clearClick t)).1.inputText = "" ∧
    homeView (homeStep (homeStep s (UIEvent.keyDown t true "Enter")).1
        (UIEvent.elapse T)).1 = View.placeholder ∧
    homeView (homeStep (homeStep s (UIEvent.clearClick t)).1
        (UIEvent.elapse T)).1 = View.placeholder := by
  have hmain : ∀ s' : HomeState,
      homeView (homeAdvance (homeSetInput s' t "") T) = View.placeholder := by
    intro s'
    have hval : (homeAdvance (homeSetInput s' t "") T).db.value = "" := by
      rw [homeAdvance_db_value]
      simp [homeSetInput, debounceChange, debounceAdvance, h]
    simp [homeView, renderView, hval, jsTrimNonempty_empty]
  refine ⟨rfl, rfl, ?_, ?_⟩
  · simpa [homeStep] using hmain s
  · simpa [homeStep] using hmain s

theorem clear_reverts_to_placeholder_witness :
    (900 : Nat) + debounceDelay ≤ 1700 ∧
    ((homeStep (runHome [UIEvent.inputChange 0 "hello", UIEvent.elapse 800])
        (UIEvent.keyDown 900 true "Enter")).1.inputText = "" ∧
     (homeStep (runHome [UIEvent.inputChange 0 "hello", UIEvent.elapse 800])
        (UIEvent.clearClick 900)).1.inputText = "" ∧
     homeView (homeStep (homeStep (runHome [UIEvent.inputChange 0 "hello", UIEvent.elapse 800])
        (UIEvent.keyDown 900 true "Enter")).1 (UIEvent.elapse 1700)).1 = View.placeholder ∧
     homeView (homeStep (homeStep (runHome [UIEvent.inputChange 0 "hello", UIEvent.elapse 800])
        (UIEvent.clearClick 900)).1 (UIEvent.elapse 1700)).1 = View.placeholder) :=
  ⟨by decide,
   clear_reverts_to_placeholder (runHome [UIEvent.inputChange 0 "hello", UIEvent.elapse 800])
     900 1700 (by decide)⟩

/-- Recognizer for download effects. -/
def effectIsSave : Effect → Bool
  | Effect.saveDownload _ _ => true
  | _ => false

/-- Recognizer for toast and clipboard-write effects. -/
def effectIsToastOrClipboard : Effect → Bool
  | Effect.toast _ => true
  | Effect.clipboardWrite _ _ => true
  | Effect.saveDownload _ _ => false

/-- C9: neither export action mutates any view state — the state after a
copy click or a download click equals the state before, so input text,
debounced text and the rendered view are all unchanged — and the emitted
effects are only toasts and clipboard writes for copy, and only
save-downloads for download. -/
theorem export_actions_frame (s : HomeState) (env : BrowserEnv) :
    (homeStep s (UIEvent.copyClick env)).1 = s ∧
    (homeStep s (UIEvent.downloadClick env)).1 = s ∧
    homeView (homeStep s (UIEvent.copyClick env)).1 = homeView s ∧
    homeView (homeStep s (UIEvent.downloadClick env)).1 = homeView s ∧
    (homeStep s (UIEvent.copyClick env)).2.all effectIsToastOrClipboard = true ∧
    (homeStep s (UIEvent.downloadClick env)).2.all effectIsSave = true := by
  refine ⟨rfl, rfl, rfl, rfl, ?_, ?_⟩
  · show (handleCopyQRCode s.db.value env).effects.all effectIsToastOrClipboard = true
    rcases env with ⟨canvas, tb, cb⟩
    cases hc : jsTrimNonempty s.db.value <;> cases canvas <;> cases tb <;> cases cb <;>
      simp [handleCopyQRCode, hc, effectIsToastOrClipboard]
  · show (handleDownload env).all effectIsSave = true
    rcases env with ⟨canvas, tb, cb⟩
    cases canvas <;> simp [handleDownload, effectIsSave]

end QrcodeGen
